import Mathlib

/-!
Shallow embedding of the school-administration backend (FastAPI + SQLAlchemy
source under `backend/`).  The relational store is modelled as lists of
records, each HTTP handler as a pure function from the store (and the
authenticated actor resolved by `get_current_user`) to either an
`HTTPException` or a result paired with the updated store.  Raising an
`HTTPException` in the source aborts the handler before any `db.add` /
`db.commit`, so error results carry no store.

Field-access notes (each flagged again at its definition): several
routers read attributes the stored models do not declare
(`from_user_id`/`to_user_id`/`read`/`message_type` on messages,
`submission_text`/`file_path` on the assignments-router submit,
`first_name`/`last_name` on the approve route).  In Python those accesses
raise `AttributeError`, which the transport maps to a 500 response; the
embedding models each such path as `.error ⟨500, "Internal Server Error"⟩`
at the same program point, after exactly the guards that precede the
crash.  Likewise, an insert that violates the users table's UNIQUE
username/email columns raises `IntegrityError` at `db.commit()`: the
transaction rolls back and nothing is stored — modelled as the same 500
with no store change.

External collaborators (`database.py`, `auth_utils.py`) are not part of the
core: password hashing and verification are passed in as opaque functions,
token issuance is modelled by returning the token's subject claim, and
fresh primary keys are passed in as explicit arguments.
-/

/-- `models.py` `User` row.  `created_at` is omitted: no modelled operation
reads it.  Roles are the strings "admin" / "teacher" / "student" / "parent". -/
structure User where
  id : Nat
  username : String
  email : String
  password_hash : String
  name : String
  role : String
  deriving Repr, DecidableEq

/-- `models.py` `Assignment` row.  `due_date`/`created_at` omitted: no
modelled operation reads them. -/
structure Assignment where
  id : Nat
  title : String
  description : Option String
  subject : String
  class_name : String
  created_by_id : Nat
  deriving Repr, DecidableEq

/-- `models.py` `AssignmentSubmission` row.  `submitted_at` omitted.
`content` is the stored payload column; `routers/assignments.py` instead
reads `submission_text`/`file_path` from its request body, fields that do
not exist there, so that route's insert crashes (500) and only
`routers/students.py` ever writes this table. -/
structure AssignmentSubmission where
  id : Nat
  assignment_id : Nat
  student_id : Nat
  content : String
  grade : Option String
  feedback : Option String
  deriving Repr, DecidableEq

/-- `models.py` `Message` row.  `sent_at` omitted.  `routers/messages.py`
reads `from_user_id`/`to_user_id`/`read`, attributes this model does not
declare: every handler line touching them raises `AttributeError` (500). -/
structure Message where
  id : Nat
  sender_id : Nat
  receiver_id : Nat
  subject : String
  content : String
  is_read : Bool
  deriving Repr, DecidableEq

/-- `models.py` `RegistrationRequest` row.  `requested_at`/`processed_at`
omitted (wall-clock timestamps).  `status` defaults to "pending" on insert. -/
structure RegistrationRequest where
  id : Nat
  username : String
  email : String
  name : String
  role : String
  status : String
  deriving Repr, DecidableEq

/-- The relational store: one list per table. -/
structure Store where
  users : List User
  assignments : List Assignment
  submissions : List AssignmentSubmission
  messages : List Message
  requests : List RegistrationRequest
  deriving Repr, DecidableEq

/-- A raised `fastapi.HTTPException`: status code and detail string. -/
structure HTTPException where
  status_code : Nat
  detail : String
  deriving Repr, DecidableEq

/-- The fresh row state of the database (`Base.metadata.create_all` on an
empty file): every table empty. -/
def emptyStore : Store := ⟨[], [], [], [], []⟩

/-! ### The authorization gate (role pre-checks)

Every handler that is restricted by role opens with a check of
`current_user.role` against a literal list (or a single literal) and raises
`403 Forbidden` otherwise.  `Action` enumerates those gated operations and
`roleAllowed` transcribes each handler's role pre-check. -/

/-- The role-gated operations of the source, one constructor per handler
that opens with a role check. -/
inductive GateAction where
  /-- `routers/assignments.py` / `routers/teachers.py` `create_assignment` -/
  | createAssignment
  /-- `routers/assignments.py` `submit_assignment` and
  `routers/students.py` `submit_assignment` (identical gate) -/
  | submitAssignment
  /-- `routers/assignments.py` / `routers/teachers.py`
  `get_assignment_submissions` -/
  | viewSubmissions
  /-- `routers/teachers.py` `grade_submission` -/
  | gradeSubmission
  /-- `routers/messages.py` `send_message` (no role gate: any
  authenticated user) -/
  | sendMessage
  /-- `routers/messages.py` `get_teachers` -/
  | listTeachers
  /-- `routers/messages.py` `send_message_to_teacher` -/
  | sendToTeacher
  /-- `routers/auth.py` `get_all_users` -/
  | viewAllUsers
  /-- `routers/auth.py` / `routers/registration_requests.py` request
  listing and detail handlers -/
  | viewRegistrationRequests
  /-- `routers/auth.py` `process_registration_request`,
  `routers/registration_requests.py` approve / reject / delete -/
  | processRegistrationRequests
  /-- `routers/students.py` `get_student_assignments` -/
  | studentListAssignments
  /-- `routers/students.py` `get_student_submissions` -/
  | studentListSubmissions
  /-- `routers/teachers.py` `get_teacher_assignments` -/
  | teacherListAssignments
  deriving Repr, DecidableEq

/-- The role pre-check of each gated handler, transcribed from the source:
`true` exactly when the handler does not raise its opening
`403 Forbidden` for an actor of that role. -/
def roleAllowed (role : String) : GateAction → Bool
  | .createAssignment => role == "teacher" || role == "admin"
  | .submitAssignment => role == "student"
  | .viewSubmissions => role == "teacher" || role == "admin"
  | .gradeSubmission => role == "teacher" || role == "admin"
  | .sendMessage => true
  | .listTeachers => role == "student" || role == "parent" || role == "admin"
  | .sendToTeacher => role == "student" || role == "parent"
  | .viewAllUsers => role == "admin"
  | .viewRegistrationRequests => role == "admin"
  | .processRegistrationRequests => role == "admin"
  | .studentListAssignments => role == "student"
  | .studentListSubmissions => role == "student"
  | .teacherListAssignments => role == "teacher" || role == "admin"

/-! ### Messaging handlers (`routers/messages.py`) -/

/-- `routers/messages.py` `send_message`: the handler's first statement
filters on `User.id == message.to_user_id`, but `MessageCreate` declares
`receiver_id`, not `to_user_id` — every call raises `AttributeError`
before the recipient check, so the route always answers 500 and stores
nothing. -/
def send_message (_db : Store) (_current_user : User) (_receiver_id : Nat)
    (_subject _content : String) (_newId : Nat) :
    Except HTTPException (Message × Store) :=
  .error ⟨500, "Internal Server Error"⟩

/-- `routers/messages.py` `get_message`: 404 when the id matches no
message (that lookup touches only the declared `Message.id`).  When the
message exists, the handler reads `message.from_user_id` /
`message.to_user_id`, attributes the stored model does not declare, so
every stored-message access raises `AttributeError` (500) — the
ownership branch and its 403 (messages.py:77-84) are dead code. -/
def get_message (db : Store) (message_id : Nat) (_current_user : User) :
    Except HTTPException Message :=
  match db.messages.find? (fun m => m.id == message_id) with
  | none => .error ⟨404, "Message not found"⟩
  | some _ => .error ⟨500, "Internal Server Error"⟩

/-- `routers/messages.py` `send_message_to_teacher`: the 403 role gate
(students and parents only) runs first and is faithful; past it the
handler reads `message.to_user_id` (and later `message.message_type`),
fields `MessageCreate` does not declare, so every student/parent call
raises `AttributeError` (500) and stores nothing. -/
def send_message_to_teacher (_db : Store) (current_user : User)
    (_to_user_id : Option Nat) (_subject _content : String) (_newId : Nat) :
    Except HTTPException (Message × Store) :=
  if !(current_user.role == "student" || current_user.role == "parent") then
    .error ⟨403, "Only students and parents can send messages to teachers"⟩
  else
    .error ⟨500, "Internal Server Error"⟩

/-- `routers/messages.py` `mark_message_as_read`: 404 when absent (the
lookup touches only `Message.id`); when found, the handler reads
`message.to_user_id`, absent from the model, so it raises
`AttributeError` (500) before any write. -/
def mark_message_as_read (db : Store) (message_id : Nat) (_current_user : User) :
    Except HTTPException Store :=
  match db.messages.find? (fun m => m.id == message_id) with
  | none => .error ⟨404, "Message not found"⟩
  | some _ => .error ⟨500, "Internal Server Error"⟩

/-! ### Assignment handlers (`routers/assignments.py`, `routers/students.py`,
`routers/teachers.py`) -/

/-- `routers/assignments.py` `create_assignment` (and its verbatim copy in
`routers/teachers.py`): 403 unless teacher or admin; stamps
`created_by_id` from the actor. -/
def create_assignment (db : Store) (current_user : User) (title : String)
    (description : Option String) (subject class_name : String) (newId : Nat) :
    Except HTTPException (Assignment × Store) :=
  if !(current_user.role == "teacher" || current_user.role == "admin") then
    .error ⟨403, "Only teachers and admins can create assignments"⟩
  else
    let a : Assignment := ⟨newId, title, description, subject, class_name, current_user.id⟩
    .ok (a, { db with assignments := db.assignments ++ [a] })

/-- `routers/assignments.py` `get_assignments`: students with a class
filter see rows whose `class_name` matches the filter or is "all" (without
a class filter the student branch applies no filter); teachers see their
own rows; other roles see all rows; a supplied subject filter is applied
on top in every case. -/
def get_assignments (db : Store) (current_user : User)
    (class_name : Option String) (subject : Option String) : List Assignment :=
  let base :=
    if current_user.role == "student" then
      match class_name with
      | some cn => db.assignments.filter fun a =>
          a.class_name == cn || a.class_name == "all"
      | none => db.assignments
    else if current_user.role == "teacher" then
      db.assignments.filter fun a => a.created_by_id == current_user.id
    else
      db.assignments
  match subject with
  | some s => base.filter fun a => a.subject == s
  | none => base

/-- `routers/assignments.py` `get_assignment`: 404 when the id matches no
row, otherwise returns the row — no role or ownership branch exists in the
handler. -/
def get_assignment (db : Store) (assignment_id : Nat) (_current_user : User) :
    Except HTTPException Assignment :=
  match db.assignments.find? (fun a => a.id == assignment_id) with
  | none => .error ⟨404, "Assignment not found"⟩
  | some a => .ok a

/-- `routers/assignments.py` `update_assignment`: 404 when absent, then 403
unless the actor created the row or is admin; replaces every writable
field. -/
def update_assignment (db : Store) (current_user : User) (assignment_id : Nat)
    (title : String) (description : Option String) (subject class_name : String) :
    Except HTTPException (Assignment × Store) :=
  match db.assignments.find? (fun a => a.id == assignment_id) with
  | none => .error ⟨404, "Assignment not found"⟩
  | some a =>
    if a.created_by_id != current_user.id && current_user.role != "admin" then
      .error ⟨403, "You can only update your own assignments"⟩
    else
      let a' := { a with title, description, subject, class_name }
      .ok (a', { db with
        assignments := db.assignments.map fun x =>
          if x.id == assignment_id then
            { x with title, description, subject, class_name }
          else x })

/-- `routers/assignments.py` `delete_assignment`: 404 when absent, then 403
unless the actor created the row or is admin; removes the row. -/
def delete_assignment (db : Store) (current_user : User) (assignment_id : Nat) :
    Except HTTPException Store :=
  match db.assignments.find? (fun a => a.id == assignment_id) with
  | none => .error ⟨404, "Assignment not found"⟩
  | some a =>
    if a.created_by_id != current_user.id && current_user.role != "admin" then
      .error ⟨403, "You can only delete your own assignments"⟩
    else
      .ok { db with
        assignments := db.assignments.filter fun x => !(x.id == assignment_id) }

/-- `routers/students.py` `get_student_assignments`: 403 unless the actor
is a student, otherwise every assignment row, unfiltered. -/
def get_student_assignments (db : Store) (current_user : User) :
    Except HTTPException (List Assignment) :=
  if current_user.role != "student" then
    .error ⟨403, "Only students can access this endpoint"⟩
  else
    .ok db.assignments

/-- `routers/students.py` `submit_assignment`: 403 unless student, 404 when
the assignment is absent, 400 when a submission by this student for this
assignment already exists, otherwise inserts the submission. -/
def students_submit_assignment (db : Store) (current_user : User)
    (assignment_id : Nat) (content : String) (newId : Nat) :
    Except HTTPException (AssignmentSubmission × Store) :=
  if current_user.role != "student" then
    .error ⟨403, "Only students can submit assignments"⟩
  else
    match db.assignments.find? (fun a => a.id == assignment_id) with
    | none => .error ⟨404, "Assignment not found"⟩
    | some _ =>
      match db.submissions.find? (fun s =>
          s.assignment_id == assignment_id && s.student_id == current_user.id) with
      | some _ => .error ⟨400, "Assignment already submitted"⟩
      | none =>
        let s : AssignmentSubmission :=
          ⟨newId, assignment_id, current_user.id, content, none, none⟩
        .ok (s, { db with submissions := db.submissions ++ [s] })

/-- `routers/assignments.py` `submit_assignment`: same 403 gate, 404
existence check and duplicate 400 as the students-router handler; the
insert, however, reads `submission.submission_text` /
`submission.file_path`, fields `AssignmentSubmissionCreate` does not
declare (it has `content`), so the success branch always raises
`AttributeError` (500) and never inserts a row. -/
def assignments_submit_assignment (db : Store) (current_user : User)
    (assignment_id : Nat) (_content : String) (_newId : Nat) :
    Except HTTPException (AssignmentSubmission × Store) :=
  if current_user.role != "student" then
    .error ⟨403, "Only students can submit assignments"⟩
  else
    match db.assignments.find? (fun a => a.id == assignment_id) with
    | none => .error ⟨404, "Assignment not found"⟩
    | some _ =>
      match db.submissions.find? (fun s =>
          s.assignment_id == assignment_id && s.student_id == current_user.id) with
      | some _ => .error ⟨400, "Assignment already submitted"⟩
      | none => .error ⟨500, "Internal Server Error"⟩

/-- `routers/teachers.py` `grade_submission`: 403 unless teacher or admin;
404 when the submission is absent; for a teacher, 403 unless the teacher
created the submission's parent assignment (the source dereferences the
parent lookup without a `None` check, which for a dangling foreign key
raises an `AttributeError` — modelled as a 500); then overwrites `grade`
and `feedback` unconditionally. -/
def grade_submission (db : Store) (current_user : User) (submission_id : Nat)
    (grade : String) (feedback : Option String) :
    Except HTTPException (AssignmentSubmission × Store) :=
  if !(current_user.role == "teacher" || current_user.role == "admin") then
    .error ⟨403, "Only teachers and admins can grade submissions"⟩
  else
    match db.submissions.find? (fun s => s.id == submission_id) with
    | none => .error ⟨404, "Submission not found"⟩
    | some submission =>
      let ownership :
          Except HTTPException Unit :=
        if current_user.role == "teacher" then
          match db.assignments.find? (fun a => a.id == submission.assignment_id) with
          | none => .error ⟨500, "Internal Server Error"⟩
          | some assignment =>
            if assignment.created_by_id != current_user.id then
              .error ⟨403, "You can only grade submissions for your own assignments"⟩
            else
              .ok ()
        else
          .ok ()
      match ownership with
      | .error e => .error e
      | .ok _ =>
        let s' := { submission with grade := some grade, feedback := feedback }
        .ok (s', { db with
          submissions := db.submissions.map fun x =>
            if x.id == submission_id then
              { x with grade := some grade, feedback := feedback }
            else x })

/-! ### Authentication (`routers/auth.py`) -/

/-- `routers/auth.py` `login`: looks the user up by username and verifies
the password against the stored hash (`verify_password` is the opaque
credential collaborator).  Both failure causes — unknown username and
wrong password — raise the same `401 "Invalid credentials"`; on success
the token's subject claim (the username) stands in for the issued token. -/
def login (db : Store) (verify_password : String → String → Bool)
    (username password : String) : Except HTTPException String :=
  match db.users.find? (fun u => u.username == username) with
  | none => .error ⟨401, "Invalid credentials"⟩
  | some user =>
    if !(verify_password password user.password_hash) then
      .error ⟨401, "Invalid credentials"⟩
    else
      .ok user.username

/-- `routers/auth.py` `create_registration_request` (public): 400 when a
user already holds the username or email; 400 when a pending request
already claims the username or email; otherwise stores the request with
the default status "pending". -/
def auth_create_registration_request (db : Store)
    (username email name role : String) (newId : Nat) :
    Except HTTPException (RegistrationRequest × Store) :=
  if (db.users.find? fun u =>
      u.username == username || u.email == email).isSome then
    .error ⟨400, "Username or email already exists"⟩
  else if (db.requests.find? fun r =>
      (r.username == username || r.email == email) && r.status == "pending").isSome then
    .error ⟨400, "Registration request already pending"⟩
  else
    let rq : RegistrationRequest := ⟨newId, username, email, name, role, "pending"⟩
    .ok (rq, { db with requests := db.requests ++ [rq] })

/-- `routers/auth.py` `process_registration_request`: 403 unless admin,
404 when the request id is absent, 400 when its status is not "pending";
otherwise writes the supplied status and, when that status is "approved",
inserts a user carrying the request's own username/email/name/role with
the default password `"{username}123"` (hashed by the opaque
collaborator).  No availability check guards that insert, but
`User.username` and `User.email` are UNIQUE columns: when either collides
with an existing user, `db.commit()` raises `IntegrityError` — a 500
with the whole transaction, the status write included, rolled back. -/
def process_registration_request (db : Store) (current_user : User)
    (request_id : Nat) (status_update : String) (hash : String → String)
    (newUserId : Nat) : Except HTTPException (RegistrationRequest × Store) :=
  if current_user.role != "admin" then
    .error ⟨403, "Only admins can process registration requests"⟩
  else
    match db.requests.find? (fun r => r.id == request_id) with
    | none => .error ⟨404, "Registration request not found"⟩
    | some db_request =>
      if db_request.status != "pending" then
        .error ⟨400, "Request has already been processed"⟩
      else
        let req' := { db_request with status := status_update }
        let db1 := { db with
          requests := db.requests.map fun r =>
            if r.id == request_id then { r with status := status_update } else r }
        if status_update == "approved" then
          if (db.users.find? fun x =>
              x.username == db_request.username ||
              x.email == db_request.email).isSome then
            .error ⟨500, "Internal Server Error"⟩
          else
            let new_user : User :=
              ⟨newUserId, db_request.username, db_request.email,
                hash (db_request.username ++ "123"), db_request.name, db_request.role⟩
            .ok (req', { db1 with users := db1.users ++ [new_user] })
        else
          .ok (req', db1)

/-! ### Registration-request router (`routers/registration_requests.py`) -/

/-- `routers/registration_requests.py` `create_registration_request`
(public): 400 when ANY stored request (whatever its status) carries the
same email; no check against existing users and none against the
username; otherwise stores the request with status "pending". -/
def rr_create_registration_request (db : Store)
    (username email name role : String) (newId : Nat) :
    Except HTTPException (RegistrationRequest × Store) :=
  if (db.requests.find? fun r => r.email == email).isSome then
    .error ⟨400, "Registration request with this email already exists"⟩
  else
    let rq : RegistrationRequest := ⟨newId, username, email, name, role, "pending"⟩
    .ok (rq, { db with requests := db.requests ++ [rq] })

/-- The local part of an email address, modelling Python's
`email.split('@')[0]`: the characters before the first '@', or the whole
string when no '@' occurs.  (Lean's own `String.splitOn` is defined by
well-founded recursion, which blocks definitional evaluation; this
structural rendering computes the same first component.) -/
def emailLocalPart (email : String) : String :=
  (email.data.takeWhile fun c => c != '@').asString

/-- Decimal rendering of a natural number, modelling Python's `str(counter)`
inside the f-string `f"{original_username}{counter}"`: the base-10 digits,
most significant first. -/
def natToDecimalString (n : Nat) : String :=
  if n = 0 then "0"
  else (((Nat.digits 10 n).map Nat.digitChar).reverse).asString

/-- Does some stored user hold this username
(`db.query(User).filter(User.username == username).first()`)? -/
def usernameTaken (users : List User) (candidate : String) : Bool :=
  users.any fun u => u.username == candidate

/-- The `while` loop at `approve_registration_request` lines 110-118
(transcribed standalone: the handler crashes right after running it, so
its result is discarded): while the current candidate is taken, move to
`original_username ++ str(counter)` and bump the counter.  The Python
loop is unbounded; here it runs on explicit fuel, and
`ensure_unique_username_spec` below shows that fuel `users.length + 1`
always suffices, so the fuel-exhausted branch (which returns the current
candidate) is never reached. -/
def ensure_unique_username (users : List User) (original_username : String) :
    Nat → String → Nat → String
  | 0, current, _ => current
  | fuel + 1, current, counter =>
    if usernameTaken users current then
      ensure_unique_username users original_username fuel
        (original_username ++ natToDecimalString counter) (counter + 1)
    else
      current

/-- `routers/registration_requests.py` `approve_registration_request`:
403 unless admin, 404 when the request id is absent, 400 when its status
is not "pending".  On a pending request the handler derives the username
base from the email's local part and runs the numeric-suffix `while`
loop (lines 110-118; transcribed standalone below as
`ensure_unique_username`), but then constructs the user reading
`request.first_name` / `request.last_name` — fields the stored model
does not declare — and raises `AttributeError` (500) before `db.add` and
before the status write: this route never creates a user and never marks
a request approved. -/
def approve_registration_request (db : Store) (current_user : User)
    (request_id : Nat) (_hash : String → String) (_newUserId : Nat) :
    Except HTTPException (String × Store) :=
  if current_user.role != "admin" then
    .error ⟨403, "Only admins can approve registration requests"⟩
  else
    match db.requests.find? (fun r => r.id == request_id) with
    | none => .error ⟨404, "Registration request not found"⟩
    | some request =>
      if request.status != "pending" then
        .error ⟨400, "Request has already been processed"⟩
      else
        .error ⟨500, "Internal Server Error"⟩

/-- `routers/registration_requests.py` `reject_registration_request`:
403 unless admin, 404 when absent, 400 when not "pending"; otherwise
marks the request "rejected". -/
def reject_registration_request (db : Store) (current_user : User)
    (request_id : Nat) : Except HTTPException Store :=
  if current_user.role != "admin" then
    .error ⟨403, "Only admins can reject registration requests"⟩
  else
    match db.requests.find? (fun r => r.id == request_id) with
    | none => .error ⟨404, "Registration request not found"⟩
    | some request =>
      if request.status != "pending" then
        .error ⟨400, "Request has already been processed"⟩
      else
        .ok { db with
          requests := db.requests.map fun r =>
            if r.id == request_id then { r with status := "rejected" } else r }

/-- `routers/registration_requests.py` `delete_registration_request`:
403 unless admin, 404 when absent, otherwise removes the request row. -/
def delete_registration_request (db : Store) (current_user : User)
    (request_id : Nat) : Except HTTPException Store :=
  if current_user.role != "admin" then
    .error ⟨403, "Only admins can delete registration requests"⟩
  else
    match db.requests.find? (fun r => r.id == request_id) with
    | none => .error ⟨404, "Registration request not found"⟩
    | some _ =>
      .ok { db with
        requests := db.requests.filter fun r => !(r.id == request_id) }

/-- `main.py` startup seed `ensure_user`: insert the demo account unless a
user with that username already exists.  The code checks only the
username; `User.email` is also UNIQUE, so a seed whose email collides
with an existing user raises `IntegrityError` at commit and stores
nothing. -/
def ensure_user (db : Store) (username email password name role : String)
    (hash : String → String) (newId : Nat) : Store :=
  if (db.users.find? fun u => u.username == username).isSome then db
  else if (db.users.find? fun u => u.email == email).isSome then db
  else
    { db with
      users := db.users ++ [⟨newId, username, email, hash password, name, role⟩] }

/-! ### Reachable store states

`Step db db'` holds when one successful mutating handler call (or one
seed insertion) turns `db` into `db'`; a handler that raises aborts before
`db.commit`, leaving the store unchanged, so error outcomes induce no
step.  `Reachable` closes the fresh empty database under `Step`. -/

/-- One successful mutating operation of the backend. -/
inductive Step : Store → Store → Prop where
  | send_message (db : Store) (u : User) (rid : Nat) (s c : String)
      (nid : Nat) (m : Message) (db' : Store) :
      send_message db u rid s c nid = .ok (m, db') → Step db db'
  | send_message_to_teacher (db : Store) (u : User) (tid : Option Nat)
      (s c : String) (nid : Nat) (m : Message) (db' : Store) :
      send_message_to_teacher db u tid s c nid = .ok (m, db') → Step db db'
  | mark_message_as_read (db : Store) (mid : Nat) (u : User) (db' : Store) :
      mark_message_as_read db mid u = .ok db' → Step db db'
  | create_assignment (db : Store) (u : User) (t : String) (d : Option String)
      (s cn : String) (nid : Nat) (a : Assignment) (db' : Store) :
      create_assignment db u t d s cn nid = .ok (a, db') → Step db db'
  | update_assignment (db : Store) (u : User) (aid : Nat) (t : String)
      (d : Option String) (s cn : String) (a : Assignment) (db' : Store) :
      update_assignment db u aid t d s cn = .ok (a, db') → Step db db'
  | delete_assignment (db : Store) (u : User) (aid : Nat) (db' : Store) :
      delete_assignment db u aid = .ok db' → Step db db'
  | students_submit_assignment (db : Store) (u : User) (aid : Nat)
      (c : String) (nid : Nat) (s : AssignmentSubmission) (db' : Store) :
      students_submit_assignment db u aid c nid = .ok (s, db') → Step db db'
  | assignments_submit_assignment (db : Store) (u : User) (aid : Nat)
      (c : String) (nid : Nat) (s : AssignmentSubmission) (db' : Store) :
      assignments_submit_assignment db u aid c nid = .ok (s, db') → Step db db'
  | grade_submission (db : Store) (u : User) (sid : Nat) (g : String)
      (fb : Option String) (s : AssignmentSubmission) (db' : Store) :
      grade_submission db u sid g fb = .ok (s, db') → Step db db'
  | auth_create_registration_request (db : Store) (un em nm rl : String)
      (nid : Nat) (rq : RegistrationRequest) (db' : Store) :
      auth_create_registration_request db un em nm rl nid = .ok (rq, db') →
      Step db db'
  | rr_create_registration_request (db : Store) (un em nm rl : String)
      (nid : Nat) (rq : RegistrationRequest) (db' : Store) :
      rr_create_registration_request db un em nm rl nid = .ok (rq, db') →
      Step db db'
  | process_registration_request (db : Store) (u : User) (rid : Nat)
      (st : String) (hash : String → String) (nuid : Nat)
      (rq : RegistrationRequest) (db' : Store) :
      process_registration_request db u rid st hash nuid = .ok (rq, db') →
      Step db db'
  | approve_registration_request (db : Store) (u : User) (rid : Nat)
      (hash : String → String) (nuid : Nat) (un : String) (db' : Store) :
      approve_registration_request db u rid hash nuid = .ok (un, db') →
      Step db db'
  | reject_registration_request (db : Store) (u : User) (rid : Nat)
      (db' : Store) :
      reject_registration_request db u rid = .ok db' → Step db db'
  | delete_registration_request (db : Store) (u : User) (rid : Nat)
      (db' : Store) :
      delete_registration_request db u rid = .ok db' → Step db db'
  | ensure_user (db : Store) (un em pw nm rl : String)
      (hash : String → String) (nid : Nat) :
      Step db (ensure_user db un em pw nm rl hash nid)

/-- Store states reachable from the fresh empty database by successful
operations. -/
inductive Reachable : Store → Prop where
  | init : Reachable emptyStore
  | step (db db' : Store) : Reachable db → Step db db' → Reachable db'

/-- The at-most-one-submission-per-(assignment, student) invariant on the
submissions table. -/
def subPairUnique (subs : List AssignmentSubmission) : Prop :=
  subs.Pairwise fun s t =>
    ¬(s.assignment_id = t.assignment_id ∧ s.student_id = t.student_id)

/-! ### Properties of the username-disambiguation loop -/

/-- `Nat.digitChar` tells base-10 digits apart. -/
lemma digitChar_inj_lt10 : ∀ a < 10, ∀ b < 10, Nat.digitChar a = Nat.digitChar b → a = b := by
  decide

/-- `List.map Nat.digitChar` is injective on lists of base-10 digits. -/
lemma map_digitChar_inj : ∀ l1 l2 : List Nat, (∀ d ∈ l1, d < 10) →
    (∀ d ∈ l2, d < 10) → l1.map Nat.digitChar = l2.map Nat.digitChar → l1 = l2 := by
  intro l1
  induction l1 with
  | nil => intro l2 _ _ h; cases l2 <;> simp_all
  | cons a t ih =>
    intro l2 h1 h2 h
    cases l2 with
    | nil => simp_all
    | cons b t2 =>
      simp only [List.map_cons, List.cons.injEq] at h
      have ha : a < 10 := h1 a (by simp)
      have hb : b < 10 := h2 b (by simp)
      have : a = b := digitChar_inj_lt10 a ha b hb h.1
      have ht : t = t2 := ih t2 (fun d hd => h1 d (by simp [hd]))
        (fun d hd => h2 d (by simp [hd])) h.2
      simp [this, ht]

/-- Decimal rendering is injective on positive numbers. -/
lemma natToDecimalString_inj_pos {m n : Nat} (hm : 0 < m) (hn : 0 < n)
    (h : natToDecimalString m = natToDecimalString n) : m = n := by
  unfold natToDecimalString at h
  rw [if_neg (Nat.pos_iff_ne_zero.mp hm), if_neg (Nat.pos_iff_ne_zero.mp hn)] at h
  rw [List.asString_inj] at h
  have h2 := List.reverse_injective h
  have h3 := map_digitChar_inj _ _
    (fun d hd => Nat.digits_lt_base (by norm_num) hd)
    (fun d hd => Nat.digits_lt_base (by norm_num) hd) h2
  exact Nat.digits.injective 10 h3

/-- Decimal rendering never yields the empty string. -/
lemma natToDecimalString_ne_empty (n : Nat) : natToDecimalString n ≠ "" := by
  unfold natToDecimalString
  by_cases h : n = 0
  · simp [h]
  · rw [if_neg h]
    intro hc
    have hlen := congrArg String.length hc
    rw [List.length_asString] at hlen
    simp only [List.length_reverse, List.length_map] at hlen
    have : Nat.digits 10 n ≠ [] := Nat.digits_ne_nil_iff_ne_zero.mpr h
    rcases List.exists_cons_of_ne_nil this with ⟨d, t, hdt⟩
    rw [hdt] at hlen
    simp [String.length] at hlen

/-- The sequence of candidates the `while` loop probes, starting from the
candidate `current` with next counter value `counter`. -/
def probe (orig current : String) (counter : Nat) : Nat → String
  | 0 => current
  | j + 1 => orig ++ natToDecimalString (counter + j)

/-- The loop's probe sequence from the handler's initial state is
injective: `orig`, `orig ++ "1"`, `orig ++ "2"`, … are pairwise distinct. -/
lemma probe_init_inj (orig : String) :
    Function.Injective (fun j => probe orig orig 1 j) := by
  have key : ∀ k : Nat, orig ≠ orig ++ natToDecimalString k := by
    intro k hc
    have := congrArg String.length hc
    rw [String.length_append] at this
    have hzero : (natToDecimalString k).length = 0 := by omega
    have : (natToDecimalString k).data.length = 0 := hzero
    rw [List.length_eq_zero] at this
    exact natToDecimalString_ne_empty k (String.ext this)
  intro i j h
  simp only at h
  match i, j with
  | 0, 0 => rfl
  | 0, j + 1 => exact absurd h (key (1 + j))
  | i + 1, 0 => exact absurd h.symm (key (1 + i))
  | i + 1, j + 1 =>
    simp only [probe] at h
    have hdata := congrArg String.data h
    simp only [String.data_append] at hdata
    have := List.append_cancel_left hdata
    have heq : natToDecimalString (1 + i) = natToDecimalString (1 + j) :=
      String.ext this
    have := natToDecimalString_inj_pos (by omega) (by omega) heq
    omega

/-- Within `users.length + 1` probes from the initial state, some
candidate is free: `users.length + 1` pairwise-distinct strings cannot all
occur among the `users.length` stored usernames. -/
lemma exists_free_probe (users : List User) (orig : String) :
    ∃ j, j < users.length + 1 ∧
      usernameTaken users (probe orig orig 1 j) = false := by
  by_contra hall
  push_neg at hall
  have htaken : ∀ j, j < users.length + 1 →
      usernameTaken users (probe orig orig 1 j) = true := by
    intro j hj
    have := hall j hj
    exact Bool.not_eq_false _ ▸ (eq_true_of_ne_false this)
  have hsub : (List.range (users.length + 1)).map (fun j => probe orig orig 1 j) ⊆
      users.map User.username := by
    intro x hx
    rcases List.mem_map.mp hx with ⟨j, hj, rfl⟩
    have hj' : j < users.length + 1 := List.mem_range.mp hj
    have := htaken j hj'
    unfold usernameTaken at this
    rcases List.any_eq_true.mp this with ⟨u, hu, hb⟩
    rcases eq_of_beq hb with h
    exact List.mem_map.mpr ⟨u, hu, h⟩
  have hnodup : ((List.range (users.length + 1)).map
      (fun j => probe orig orig 1 j)).Nodup :=
    (List.nodup_range _).map (probe_init_inj orig)
  have hsp := List.subperm_of_subset hnodup hsub
  have := hsp.length_le
  simp only [List.length_map, List.length_range] at this
  omega

/-- Whenever some probe within the fuel is free, the loop returns a
username no stored user holds. -/
lemma ensure_unique_username_free (users : List User) (orig : String) :
    ∀ fuel current counter,
      (∃ j, j < fuel ∧ usernameTaken users (probe orig current counter j) = false) →
      usernameTaken users
        (ensure_unique_username users orig fuel current counter) = false := by
  intro fuel
  induction fuel with
  | zero => intro current counter h; rcases h with ⟨j, hj, _⟩; omega
  | succ fuel ih =>
    intro current counter h
    rcases h with ⟨j, hj, hfree⟩
    unfold ensure_unique_username
    by_cases htaken : usernameTaken users current
    · rw [if_pos htaken]
      apply ih
      cases j with
      | zero => rw [probe] at hfree; rw [htaken] at hfree; cases hfree
      | succ j' =>
        refine ⟨j', by omega, ?_⟩
        rw [probe] at hfree
        cases j' with
        | zero => rw [probe]; simpa using hfree
        | succ k =>
          rw [probe]
          have harith : counter + 1 + k = counter + (k + 1) := by omega
          rw [harith]
          exact hfree
    · rw [if_neg htaken]
      exact Bool.eq_false_iff.mpr htaken

/-- The loop's result is one of its probes: the base, or the base followed
by a positive decimal suffix. -/
lemma ensure_unique_username_mem (users : List User) (orig : String) :
    ∀ fuel current counter, ∃ j,
      ensure_unique_username users orig fuel current counter =
        probe orig current counter j := by
  intro fuel
  induction fuel with
  | zero => intro current counter; exact ⟨0, rfl⟩
  | succ fuel ih =>
    intro current counter
    unfold ensure_unique_username
    by_cases htaken : usernameTaken users current
    · rw [if_pos htaken]
      rcases ih (orig ++ natToDecimalString counter) (counter + 1) with ⟨j, hj⟩
      refine ⟨j + 1, ?_⟩
      rw [hj]
      cases j with
      | zero => rw [probe, probe]; rw [Nat.add_zero]
      | succ k =>
        rw [probe, probe]
        have harith : counter + 1 + k = counter + (k + 1) := by omega
        rw [harith]
    · rw [if_neg htaken]
      exact ⟨0, rfl⟩

/-- The handler's call of the loop (fuel `users.length + 1`, starting at
the base with counter 1) returns a username no stored user holds. -/
lemma ensure_unique_username_spec (users : List User) (orig : String) :
    usernameTaken users
      (ensure_unique_username users orig (users.length + 1) orig 1) = false :=
  ensure_unique_username_free users orig _ _ _ (exists_free_probe users orig)

/-- The handler's call of the loop returns the base or the base with a
positive decimal suffix appended. -/
lemma ensure_unique_username_shape (users : List User) (orig : String) :
    ensure_unique_username users orig (users.length + 1) orig 1 = orig ∨
      ∃ k, 1 ≤ k ∧ ensure_unique_username users orig (users.length + 1) orig 1 =
        orig ++ natToDecimalString k := by
  rcases ensure_unique_username_mem users orig (users.length + 1) orig 1 with ⟨j, hj⟩
  cases j with
  | zero => exact .inl hj
  | succ k => exact .inr ⟨1 + k, by omega, hj⟩

/-! ### Concrete fixtures used by counterexamples and witnesses -/

/-- A student actor fixture. -/
def stuFix : User := ⟨2, "student1", "student1@school.com", "h1", "Student One", "student"⟩

/-- An assignment for class "10A" created by teacher 7. -/
def asgFix : Assignment := ⟨1, "HW1", none, "Math", "10A", 7⟩

/-- A store holding exactly the class-"10A" assignment. -/
def dbAsgFix : Store := ⟨[], [asgFix], [], [], []⟩

/-- A store holding exactly one teacher user with email "x@y.com". -/
def dbUserFix : Store := ⟨[⟨1, "bob", "x@y.com", "h2", "Bob", "teacher"⟩], [], [], [], []⟩

/-- The request row the second intake endpoint inserts in the
`C7` counterexample. -/
def rqFix : RegistrationRequest := ⟨5, "newguy", "x@y.com", "New Guy", "student", "pending"⟩

/-- The request row inserted by the `C7` witness run. -/
def rqW : RegistrationRequest := ⟨1, "newuser", "new@x.com", "New User", "student", "pending"⟩

/-- The store after the `C7` witness run. -/
def dbW : Store := { emptyStore with requests := [rqW] }

/-- A one-user store for the `C9` witness (stored hash equals the plain
password under the witness's verifier). -/
def dbLoginFix : Store := ⟨[⟨1, "bob", "b@x.com", "pw", "Bob", "teacher"⟩], [], [], [], []⟩

/-! ### C1 -/

/-- C1 counterexample: the gate allows a student the send-to-teacher
operation but denies it to an admin, so an admin IS denied an action
available to another role (the claim, as stated, is false). -/
theorem C1_counterexample :
    roleAllowed "student" GateAction.sendToTeacher = true ∧
    roleAllowed "admin" GateAction.sendToTeacher = false := by
  decide

/-- C1 amended: outside the student/parent-exclusive operations (submit
assignment, the student listing routes, and send-to-teacher), any action
the gate allows some role is also allowed to an admin. -/
theorem C1_amended (a : GateAction) (r : String)
    (ha : a ∉ [GateAction.submitAssignment, GateAction.sendToTeacher,
      GateAction.studentListAssignments, GateAction.studentListSubmissions])
    (_h : roleAllowed r a = true) : roleAllowed "admin" a = true := by
  cases a <;> first | rfl | exact absurd (by decide) ha

/-- C1 witness: the amended theorem applied to the teacher-allowed
create-assignment action. -/
theorem C1_witness : roleAllowed "admin" GateAction.createAssignment = true :=
  C1_amended GateAction.createAssignment "teacher" (by decide) (by decide)

/-! ### C5 -/

/-- A stored message whose sender is `stuFix` (user id 2). -/
def msgFix : Message := ⟨1, 2, 9, "hi", "text", false⟩

/-- Store holding only `msgFix`. -/
def dbMsgFix : Store := ⟨[], [], [], [msgFix], []⟩

/-- C5: the code evaluated at the claim's failing input.  The dead
ownership branch at messages.py:77-84 (and its comment) states exactly
the claimed visibility rule, but the handler reads
`from_user_id`/`to_user_id`, attributes the Message model does not
declare: even the message's own sender gets a 500 instead of the
message, and for an absent id every actor gets 404, never Forbidden. -/
theorem C5_code_bug :
    get_message dbMsgFix 1 stuFix = .error ⟨500, "Internal Server Error"⟩ ∧
    msgFix.sender_id = stuFix.id ∧
    get_message emptyStore 1 stuFix = .error ⟨404, "Message not found"⟩ := by
  exact ⟨rfl, rfl, rfl⟩

/-! ### C6 -/

/-- C6 counterexample: the student-router listing returns every assignment
unfiltered — a student sees the class-"10A" assignment even though it
matches no class filter and is not "all", so the student-visibility
predicate does not govern every student-facing listing route. -/
theorem C6_counterexample :
    get_student_assignments dbAsgFix stuFix = .ok [asgFix] ∧
    asgFix.class_name ≠ "10B" ∧ asgFix.class_name ≠ "all" := by
  exact ⟨rfl, by decide, by decide⟩

/-- The trailing subject filter of `get_assignments`, shared by every role
branch. -/
def subjectFilter (subj : Option String) (l : List Assignment) : List Assignment :=
  match subj with
  | some s => l.filter fun a => a.subject == s
  | none => l

/-- C6 amended: on the main listing route a student with a class filter
sees exactly the rows matching the filter or marked "all" (subject filter
applied conjunctively on top); without a class filter the student branch
applies no class predicate; and the student-router route returns every
row, unfiltered. -/
theorem C6_amended (db : Store) (u : User) (cn : String) (subj : Option String)
    (hrole : u.role = "student") :
    get_assignments db u (some cn) subj =
      subjectFilter subj (db.assignments.filter fun a =>
        a.class_name == cn || a.class_name == "all") ∧
    get_assignments db u none subj = subjectFilter subj db.assignments ∧
    get_student_assignments db u = .ok db.assignments := by
  refine ⟨?_, ?_, ?_⟩
  · unfold get_assignments subjectFilter
    simp [hrole]
  · unfold get_assignments subjectFilter
    simp [hrole]
  · unfold get_student_assignments
    simp [hrole]

/-- C6 witness: the amended theorem applied to the concrete "10B" filter
over a store holding only a "10A" assignment yields the empty list. -/
theorem C6_witness : get_assignments dbAsgFix stuFix (some "10B") none = [] := by
  have h := (C6_amended dbAsgFix stuFix "10B" none rfl).1
  rw [h]
  rfl

/-! ### C7 -/

/-- C7 counterexample: the `/registration-requests/` intake accepts a
candidate whose email already belongs to a stored user (it checks only
prior request rows), so intake does NOT return Conflict whenever the email
belongs to an existing user on every intake endpoint. -/
theorem C7_counterexample :
    rr_create_registration_request dbUserFix "newguy" "x@y.com" "New Guy" "student" 5 =
      .ok (rqFix, { dbUserFix with requests := [rqFix] }) ∧
    (dbUserFix.users.find? fun u => u.email == "x@y.com").isSome = true := by
  exact ⟨rfl, rfl⟩

/-- C7 amended: the `/auth/register-request` intake rejects exactly when
the username or email belongs to a stored user or to a pending request,
while the `/registration-requests/` intake rejects exactly when any stored
request (whatever its status) carries the same email — it ignores stored
users and usernames; both store a "pending" request (appended) on
success, and both rejections are 400s. -/
theorem C7_amended (db : Store) (un em nm rl : String) (nid : Nat) :
    ((∃ e, auth_create_registration_request db un em nm rl nid = .error e ∧
        e.status_code = 400) ↔
      ((db.users.find? fun u => u.username == un || u.email == em).isSome ∨
       (db.requests.find? fun r =>
         (r.username == un || r.email == em) && r.status == "pending").isSome)) ∧
    ((∃ e, rr_create_registration_request db un em nm rl nid = .error e ∧
        e.status_code = 400) ↔
      (db.requests.find? fun r => r.email == em).isSome) ∧
    (∀ rq db', auth_create_registration_request db un em nm rl nid = .ok (rq, db') →
      rq.status = "pending" ∧ db'.requests = db.requests ++ [rq]) ∧
    (∀ rq db', rr_create_registration_request db un em nm rl nid = .ok (rq, db') →
      rq.status = "pending" ∧ db'.requests = db.requests ++ [rq]) := by
  refine ⟨?_, ?_, ?_, ?_⟩
  · unfold auth_create_registration_request
    by_cases h1 : (db.users.find? fun u => u.username == un || u.email == em).isSome
    · simp [h1]
    · by_cases h2 : (db.requests.find? fun r =>
          (r.username == un || r.email == em) && r.status == "pending").isSome
      · simp [h1, h2]
      · simp [h1, h2]
  · unfold rr_create_registration_request
    by_cases h1 : (db.requests.find? fun r => r.email == em).isSome
    · simp [h1]
    · simp [h1]
  · intro rq db' h
    unfold auth_create_registration_request at h
    by_cases h1 : (db.users.find? fun u => u.username == un || u.email == em).isSome
    · rw [if_pos h1] at h; cases h
    · rw [if_neg h1] at h
      by_cases h2 : (db.requests.find? fun r =>
          (r.username == un || r.email == em) && r.status == "pending").isSome
      · rw [if_pos h2] at h; cases h
      · rw [if_neg h2] at h
        cases h
        exact ⟨rfl, rfl⟩
  · intro rq db' h
    unfold rr_create_registration_request at h
    by_cases h1 : (db.requests.find? fun r => r.email == em).isSome
    · rw [if_pos h1] at h; cases h
    · rw [if_neg h1] at h
      cases h
      exact ⟨rfl, rfl⟩

/-- C7 witness: the amended theorem applied to a concrete successful
intake run on the empty store. -/
theorem C7_witness : rqW.status = "pending" ∧ dbW.requests = emptyStore.requests ++ [rqW] :=
  (C7_amended emptyStore "newuser" "new@x.com" "New User" "student" 1).2.2.1 rqW dbW rfl

/-! ### C9 -/

/-- C9: login fails identically — same 401 status and same
"Invalid credentials" detail — for an unknown username and for a known
username with a failing password check, so the two causes are
indistinguishable to the caller. -/
theorem C9_login_uniform_failure (db : Store) (verify : String → String → Bool)
    (u1 p1 u2 p2 : String) (usr : User)
    (h1 : db.users.find? (fun x => x.username == u1) = none)
    (h2 : db.users.find? (fun x => x.username == u2) = some usr)
    (h3 : verify p2 usr.password_hash = false) :
    login db verify u1 p1 = .error ⟨401, "Invalid credentials"⟩ ∧
    login db verify u2 p2 = .error ⟨401, "Invalid credentials"⟩ ∧
    login db verify u1 p1 = login db verify u2 p2 := by
  unfold login
  rw [h1, h2]
  dsimp only
  rw [h3]
  refine ⟨rfl, ?_, ?_⟩ <;> simp

/-- C9 witness: the theorem at a concrete store, comparing a ghost
username with a wrong-password attempt for the stored user. -/
theorem C9_witness :
    login dbLoginFix (fun p h => p == h) "ghost" "x" =
      .error ⟨401, "Invalid credentials"⟩ ∧
    login dbLoginFix (fun p h => p == h) "bob" "wrong" =
      .error ⟨401, "Invalid credentials"⟩ ∧
    login dbLoginFix (fun p h => p == h) "ghost" "x" =
      login dbLoginFix (fun p h => p == h) "bob" "wrong" :=
  C9_login_uniform_failure dbLoginFix (fun p h => p == h) "ghost" "x" "bob" "wrong"
    ⟨1, "bob", "b@x.com", "pw", "Bob", "teacher"⟩ rfl rfl rfl

/-! ### C10 -/

/-- C10: fetching one assignment by id ignores the actor entirely: the
result is the same for every authenticated user, an existing id yields the
row, a missing id yields `404`, and no input yields `403 Forbidden`. -/
theorem C10_get_assignment_no_gate (db : Store) (aid : Nat) (u v : User) :
    get_assignment db aid u = get_assignment db aid v ∧
    (∀ a, db.assignments.find? (fun x => x.id == aid) = some a →
      get_assignment db aid u = .ok a) ∧
    (db.assignments.find? (fun x => x.id == aid) = none →
      get_assignment db aid u = .error ⟨404, "Assignment not found"⟩) ∧
    (∀ d, get_assignment db aid u ≠ .error ⟨403, d⟩) := by
  unfold get_assignment
  cases hfind : db.assignments.find? (fun x => x.id == aid) with
  | none =>
    refine ⟨rfl, ?_, fun _ => rfl, ?_⟩
    · intro a ha; cases ha
    · intro d hc
      have := (Except.error.injEq _ _).mp hc
      have h4 : (404 : Nat) = 403 := congrArg HTTPException.status_code this
      cases h4
  | some a =>
    refine ⟨rfl, ?_, ?_, ?_⟩
    · intro b hb
      rw [Option.some.injEq] at hb
      rw [hb]
    · intro hnone; cases hnone
    · intro d hc; cases hc

/-- C10 witness: the theorem at a concrete store and a parent actor,
returning the stored `10A` assignment. -/
theorem C10_witness : get_assignment dbAsgFix 1 ⟨3, "parent1", "p@x.com", "h3", "P", "parent"⟩ = .ok asgFix :=
  (C10_get_assignment_no_gate dbAsgFix 1 ⟨3, "parent1", "p@x.com", "h3", "P", "parent"⟩ stuFix).2.1 asgFix rfl

/-! ### Helper lemmas: looking up and rewriting a row in place -/

/-- If a row matches, the in-place rewrite (`setattr` + `commit` on the
row the query found) leaves the rewritten row at the matching position. -/
lemma find?_map_of_pred_preserved {α : Type} (p : α → Bool) (f : α → α)
    (hpres : ∀ x, p (f x) = p x) :
    ∀ (l : List α) (a : α), l.find? p = some a →
      (l.map fun x => if p x then f x else x).find? p = some (f a) := by
  intro l
  induction l with
  | nil => intro a h; cases h
  | cons hd tl ih =>
    intro a h
    by_cases hp : p hd
    · rw [List.find?_cons_of_pos _ hp] at h
      rw [Option.some.injEq] at h
      subst h
      simp only [List.map_cons, if_pos hp]
      exact List.find?_cons_of_pos _ (by rw [hpres]; exact hp)
    · rw [List.find?_cons_of_neg _ hp] at h
      simp only [List.map_cons, if_neg hp]
      rw [List.find?_cons_of_neg _ hp]
      exact ih a h

/-- Rewriting matching rows twice with an idempotent per-row update equals
rewriting once. -/
lemma map_if_idem {α : Type} (p : α → Bool) (f : α → α)
    (hpres : ∀ x, p (f x) = p x) (hid : ∀ x, f (f x) = f x) (l : List α) :
    ((l.map fun x => if p x then f x else x).map fun x => if p x then f x else x) =
      l.map fun x => if p x then f x else x := by
  rw [List.map_map]
  apply List.map_congr_left
  intro x _
  simp only [Function.comp_apply]
  by_cases hp : p x
  · rw [if_pos hp, if_pos (by rw [hpres]; exact hp), hid]
  · rw [if_neg hp, if_neg hp]

/-! ### C8 -/

/-- C8: for an admin, or for the teacher who created the submission's
parent assignment, grading always succeeds on an existing submission,
overwrites `grade`/`feedback` unconditionally with the supplied values
(whatever was stored before), and grading again with the same arguments
returns the same row and the very same store. -/
theorem C8_grade_overwrite_idempotent (db : Store) (u : User) (sid : Nat)
    (g : String) (fb : Option String) (submission : AssignmentSubmission)
    (hfind : db.submissions.find? (fun s => s.id == sid) = some submission)
    (hauth : u.role = "admin" ∨
      (u.role = "teacher" ∧ ∃ assignment,
        db.assignments.find? (fun a => a.id == submission.assignment_id) =
          some assignment ∧ assignment.created_by_id = u.id)) :
    grade_submission db u sid g fb =
      .ok ({submission with grade := some g, feedback := fb},
        { db with submissions := db.submissions.map fun x =>
            if x.id == sid then { x with grade := some g, feedback := fb } else x }) ∧
    grade_submission
      { db with submissions := db.submissions.map fun x =>
          if x.id == sid then { x with grade := some g, feedback := fb } else x }
      u sid g fb =
      .ok ({submission with grade := some g, feedback := fb},
        { db with submissions := db.submissions.map fun x =>
            if x.id == sid then { x with grade := some g, feedback := fb } else x }) := by
  have hfind2 :
      (db.submissions.map fun x =>
        if x.id == sid then { x with grade := some g, feedback := fb } else x).find?
          (fun s => s.id == sid) =
        some ({ submission with grade := some g, feedback := fb }) :=
    find?_map_of_pred_preserved (fun s => s.id == sid)
      (fun x => { x with grade := some g, feedback := fb }) (fun _ => rfl)
      db.submissions submission hfind
  have hmapidem :
      ((db.submissions.map fun x =>
        if x.id == sid then { x with grade := some g, feedback := fb } else x).map
          fun x => if x.id == sid then { x with grade := some g, feedback := fb } else x) =
        db.submissions.map fun x =>
          if x.id == sid then { x with grade := some g, feedback := fb } else x :=
    map_if_idem (fun s => s.id == sid)
      (fun x => { x with grade := some g, feedback := fb }) (fun _ => rfl)
      (fun _ => rfl) db.submissions
  rcases hauth with hadm | ⟨hteach, assignment, hasg, hown⟩
  · constructor
    · unfold grade_submission
      rw [hfind]
      simp [hadm]
    · unfold grade_submission
      rw [hfind2]
      simp [hadm, hmapidem]
      intro a _ ha
      by_cases h : a.id = sid
      · simp [h]
      · rw [if_neg h] at ha
        exact absurd ha h
  · constructor
    · unfold grade_submission
      rw [hfind]
      simp [hteach, hasg, hown]
    · unfold grade_submission
      rw [hfind2]
      simp [hteach, hasg, hown, hmapidem]
      intro a _ ha
      by_cases h : a.id = sid
      · simp [h]
      · rw [if_neg h] at ha
        exact absurd ha h

/-! ### C3: the review operations as one family -/

/-- The three review entry points of the source: the generic
status-writing `PUT /auth/register-requests/{id}` and the dedicated
approve / reject routes. -/
inductive ReviewOp where
  | process (decision : String)
  | approve
  | reject
  deriving Repr, DecidableEq

/-- Run a review operation, keeping only the store outcome. -/
def runReview (op : ReviewOp) (db : Store) (u : User) (rid : Nat)
    (hash : String → String) (nuid : Nat) : Except HTTPException Store :=
  match op with
  | .process d =>
    match process_registration_request db u rid d hash nuid with
    | .error e => .error e
    | .ok (_, db') => .ok db'
  | .approve =>
    match approve_registration_request db u rid hash nuid with
    | .error e => .error e
    | .ok (_, db') => .ok db'
  | .reject => reject_registration_request db u rid

/-- A review decision the interface documents: the generic route is
called with "approved" or "rejected" (`RegistrationRequestUpdate.status`);
the dedicated routes fix their decision. -/
def legalDecision : ReviewOp → Prop
  | .process d => d = "approved" ∨ d = "rejected"
  | .approve => True
  | .reject => True

/-- On an admin call with a stored pending request, the generic review
route with a decision other than "approved" succeeds, rewrites the
request's status to the supplied decision and touches no other request. -/
lemma process_pending_not_approved_ok {db : Store} {u : User} {rid : Nat}
    {req : RegistrationRequest} (st : String) (hash : String → String) (nuid : Nat)
    (hadm : u.role = "admin")
    (hfind : db.requests.find? (fun r => r.id == rid) = some req)
    (hpend : req.status = "pending")
    (hne : st ≠ "approved") :
    process_registration_request db u rid st hash nuid =
      .ok ({ req with status := st },
        { db with requests := db.requests.map fun r =>
            if r.id == rid then { r with status := st } else r }) := by
  unfold process_registration_request
  simp only [hadm, hfind]
  simp [hpend, hne]

/-- On an admin call with a stored pending request whose username and
email collide with no stored user, the generic review route with decision
"approved" succeeds: it marks the request approved and inserts the user
carrying the request's own username. -/
lemma process_pending_approved_ok {db : Store} {u : User} {rid : Nat}
    {req : RegistrationRequest} (hash : String → String) (nuid : Nat)
    (hadm : u.role = "admin")
    (hfind : db.requests.find? (fun r => r.id == rid) = some req)
    (hpend : req.status = "pending")
    (hfree : db.users.find? (fun x =>
      x.username == req.username || x.email == req.email) = none) :
    process_registration_request db u rid "approved" hash nuid =
      .ok ({ req with status := "approved" },
        { db with
          requests := db.requests.map fun r =>
            if r.id == rid then { r with status := "approved" } else r,
          users := db.users ++
            [⟨nuid, req.username, req.email, hash (req.username ++ "123"),
              req.name, req.role⟩] }) := by
  unfold process_registration_request
  simp only [hadm, hfind]
  have hno : ¬∃ x ∈ db.users, x.username = req.username ∨ x.email = req.email := by
    rw [List.find?_eq_none] at hfree
    rintro ⟨x, hx, hor⟩
    exact hfree x hx (by rcases hor with h | h <;> simp [h])
  simp [hpend, hno]

/-- On an admin call with a stored pending request whose username or
email already belongs to a stored user, the "approved" decision on the
generic route hits the UNIQUE constraint at commit: 500, transaction
rolled back, nothing stored. -/
lemma process_pending_approved_500 {db : Store} {u : User} {rid : Nat}
    {req : RegistrationRequest} (hash : String → String) (nuid : Nat)
    (hadm : u.role = "admin")
    (hfind : db.requests.find? (fun r => r.id == rid) = some req)
    (hpend : req.status = "pending")
    (hcoll : (db.users.find? fun x =>
      x.username == req.username || x.email == req.email).isSome = true) :
    process_registration_request db u rid "approved" hash nuid =
      .error ⟨500, "Internal Server Error"⟩ := by
  unfold process_registration_request
  simp only [hadm, hfind]
  have hyes : ∃ x ∈ db.users, x.username = req.username ∨ x.email = req.email := by
    simpa using hcoll
  simp [hpend, hyes]

/-- On an admin call with a stored pending request, the approve route
crashes reading `request.first_name` (500) before any write. -/
lemma approve_pending_500 {db : Store} {u : User} {rid : Nat}
    {req : RegistrationRequest} (hash : String → String) (nuid : Nat)
    (hadm : u.role = "admin")
    (hfind : db.requests.find? (fun r => r.id == rid) = some req)
    (hpend : req.status = "pending") :
    approve_registration_request db u rid hash nuid =
      .error ⟨500, "Internal Server Error"⟩ := by
  unfold approve_registration_request
  simp only [hadm, hfind]
  simp [hpend]

/-- On an admin call with a stored pending request, the reject route
succeeds and marks the request rejected. -/
lemma reject_pending_ok {db : Store} {u : User} {rid : Nat} {req : RegistrationRequest}
    (hadm : u.role = "admin")
    (hfind : db.requests.find? (fun r => r.id == rid) = some req)
    (hpend : req.status = "pending") :
    reject_registration_request db u rid =
      .ok { db with
        requests := db.requests.map fun r =>
          if r.id == rid then { r with status := "rejected" } else r } := by
  unfold reject_registration_request
  simp only [hadm, hfind]
  simp [hpend]

/-- An admin review of a non-pending request answers the
already-processed 400 on the generic route. -/
lemma process_terminal_conflict {db : Store} {u : User} {rid : Nat}
    {req : RegistrationRequest} (st : String) (hash : String → String) (nuid : Nat)
    (hadm : u.role = "admin")
    (hfind : db.requests.find? (fun r => r.id == rid) = some req)
    (hterm : req.status ≠ "pending") :
    process_registration_request db u rid st hash nuid =
      .error ⟨400, "Request has already been processed"⟩ := by
  unfold process_registration_request
  simp only [hadm, hfind]
  simp [hterm]

/-- An admin review of a non-pending request answers the
already-processed 400 on the approve route (the status guard precedes
the crash). -/
lemma approve_terminal_conflict {db : Store} {u : User} {rid : Nat}
    {req : RegistrationRequest} (hash : String → String) (nuid : Nat)
    (hadm : u.role = "admin")
    (hfind : db.requests.find? (fun r => r.id == rid) = some req)
    (hterm : req.status ≠ "pending") :
    approve_registration_request db u rid hash nuid =
      .error ⟨400, "Request has already been processed"⟩ := by
  unfold approve_registration_request
  simp only [hadm, hfind]
  simp [hterm]

/-- An admin review of a non-pending request answers the
already-processed 400 on the reject route. -/
lemma reject_terminal_conflict {db : Store} {u : User} {rid : Nat}
    {req : RegistrationRequest}
    (hadm : u.role = "admin")
    (hfind : db.requests.find? (fun r => r.id == rid) = some req)
    (hterm : req.status ≠ "pending") :
    reject_registration_request db u rid =
      .error ⟨400, "Request has already been processed"⟩ := by
  unfold reject_registration_request
  simp only [hadm, hfind]
  simp [hterm]

/-- A successful legal review leaves the reviewed request stored with a
terminal status.  (The approve route and a colliding "approved" decision
never succeed, so those cases are vacuous.) -/
lemma runReview_ok_inv {op : ReviewOp} {db : Store} {u : User} {rid : Nat}
    {hash : String → String} {nuid : Nat} {db' : Store}
    (h : runReview op db u rid hash nuid = .ok db') (hleg : legalDecision op) :
    ∃ req', db'.requests.find? (fun r => r.id == rid) = some req' ∧
      (req'.status = "approved" ∨ req'.status = "rejected") := by
  cases op with
  | process d =>
    simp only [runReview] at h
    by_cases hadm : u.role = "admin"
    · cases hfind : db.requests.find? (fun r => r.id == rid) with
      | none =>
        rw [show process_registration_request db u rid d hash nuid =
            .error ⟨404, "Registration request not found"⟩ from by
          unfold process_registration_request
          simp [hadm, hfind]] at h
        cases h
      | some req =>
        by_cases hpend : req.status = "pending"
        · by_cases happ : d = "approved"
          · subst happ
            cases hcoll : db.users.find? (fun x =>
                x.username == req.username || x.email == req.email) with
            | some x =>
              rw [process_pending_approved_500 hash nuid hadm hfind hpend
                (by rw [hcoll]; rfl)] at h
              cases h
            | none =>
              rw [process_pending_approved_ok hash nuid hadm hfind hpend hcoll] at h
              rw [Except.ok.injEq] at h
              subst h
              refine ⟨{ req with status := "approved" }, ?_, .inl rfl⟩
              exact find?_map_of_pred_preserved (fun r => r.id == rid)
                (fun r => { r with status := "approved" }) (fun _ => rfl)
                db.requests req hfind
          · rw [process_pending_not_approved_ok d hash nuid hadm hfind hpend happ] at h
            rw [Except.ok.injEq] at h
            subst h
            refine ⟨{ req with status := d }, ?_, ?_⟩
            · exact find?_map_of_pred_preserved (fun r => r.id == rid)
                (fun r => { r with status := d }) (fun _ => rfl) db.requests req hfind
            · rcases hleg with hd | hd
              · exact absurd hd happ
              · exact .inr (by rw [hd])
        · rw [process_terminal_conflict d hash nuid hadm hfind hpend] at h
          cases h
    · rw [show process_registration_request db u rid d hash nuid =
          .error ⟨403, "Only admins can process registration requests"⟩ from by
        unfold process_registration_request
        simp [hadm]] at h
      cases h
  | approve =>
    simp only [runReview] at h
    by_cases hadm : u.role = "admin"
    · cases hfind : db.requests.find? (fun r => r.id == rid) with
      | none =>
        rw [show approve_registration_request db u rid hash nuid =
            .error ⟨404, "Registration request not found"⟩ from by
          unfold approve_registration_request
          simp [hadm, hfind]] at h
        cases h
      | some req =>
        by_cases hpend : req.status = "pending"
        · rw [approve_pending_500 hash nuid hadm hfind hpend] at h
          cases h
        · rw [approve_terminal_conflict hash nuid hadm hfind hpend] at h
          cases h
    · rw [show approve_registration_request db u rid hash nuid =
          .error ⟨403, "Only admins can approve registration requests"⟩ from by
        unfold approve_registration_request
        simp [hadm]] at h
      cases h
  | reject =>
    simp only [runReview] at h
    by_cases hadm : u.role = "admin"
    · cases hfind : db.requests.find? (fun r => r.id == rid) with
      | none =>
        rw [show reject_registration_request db u rid =
            .error ⟨404, "Registration request not found"⟩ from by
          unfold reject_registration_request
          simp [hadm, hfind]] at h
        cases h
      | some req =>
        by_cases hpend : req.status = "pending"
        · rw [reject_pending_ok hadm hfind hpend] at h
          rw [Except.ok.injEq] at h
          subst h
          refine ⟨{ req with status := "rejected" }, ?_, .inr rfl⟩
          exact find?_map_of_pred_preserved (fun r => r.id == rid)
            (fun r => { r with status := "rejected" }) (fun _ => rfl) db.requests req hfind
        · rw [reject_terminal_conflict hadm hfind hpend] at h
          cases h
    · rw [show reject_registration_request db u rid =
          .error ⟨403, "Only admins can reject registration requests"⟩ from by
        unfold reject_registration_request
        simp [hadm]] at h
      cases h

/-- C3 amended: terminal statuses are sticky and a completed review
cannot be repeated, but only some first reviews succeed.  On a stored
pending request an admin succeeds via the reject route, via the generic
route with decision "rejected", or via the generic route with "approved"
when the request's username and email collide with no stored user — each
leaving the request terminal; the approve route 500s before any write
(the request stays pending), and a colliding "approved" decision 500s
with the transaction rolled back.  No review by anyone ever succeeds on
a non-pending request, and after any successful legal review a second
admin review on any route answers the already-processed 400. -/
theorem C3_review_terminal :
    (∀ (db : Store) (u : User) (rid : Nat) (req : RegistrationRequest)
        (hash : String → String) (nuid : Nat),
      u.role = "admin" →
      db.requests.find? (fun r => r.id == rid) = some req →
      req.status = "pending" →
      ∃ db' req', runReview ReviewOp.reject db u rid hash nuid = .ok db' ∧
        db'.requests.find? (fun r => r.id == rid) = some req' ∧
        req'.status = "rejected") ∧
    (∀ (db : Store) (u : User) (rid : Nat) (req : RegistrationRequest)
        (hash : String → String) (nuid : Nat),
      u.role = "admin" →
      db.requests.find? (fun r => r.id == rid) = some req →
      req.status = "pending" →
      ∃ db' req', runReview (ReviewOp.process "rejected") db u rid hash nuid = .ok db' ∧
        db'.requests.find? (fun r => r.id == rid) = some req' ∧
        req'.status = "rejected") ∧
    (∀ (db : Store) (u : User) (rid : Nat) (req : RegistrationRequest)
        (hash : String → String) (nuid : Nat),
      u.role = "admin" →
      db.requests.find? (fun r => r.id == rid) = some req →
      req.status = "pending" →
      db.users.find? (fun x =>
        x.username == req.username || x.email == req.email) = none →
      ∃ db' req', runReview (ReviewOp.process "approved") db u rid hash nuid = .ok db' ∧
        db'.requests.find? (fun r => r.id == rid) = some req' ∧
        req'.status = "approved") ∧
    (∀ (db : Store) (u : User) (rid : Nat) (req : RegistrationRequest)
        (hash : String → String) (nuid : Nat),
      u.role = "admin" →
      db.requests.find? (fun r => r.id == rid) = some req →
      req.status = "pending" →
      runReview ReviewOp.approve db u rid hash nuid =
        .error ⟨500, "Internal Server Error"⟩) ∧
    (∀ (db : Store) (u : User) (rid : Nat) (req : RegistrationRequest)
        (hash : String → String) (nuid : Nat),
      u.role = "admin" →
      db.requests.find? (fun r => r.id == rid) = some req →
      req.status = "pending" →
      (db.users.find? fun x =>
        x.username == req.username || x.email == req.email).isSome = true →
      runReview (ReviewOp.process "approved") db u rid hash nuid =
        .error ⟨500, "Internal Server Error"⟩) ∧
    (∀ (op : ReviewOp) (db : Store) (u : User) (rid : Nat)
        (req : RegistrationRequest) (hash : String → String) (nuid : Nat)
        (db' : Store),
      db.requests.find? (fun r => r.id == rid) = some req →
      req.status ≠ "pending" →
      runReview op db u rid hash nuid ≠ .ok db') ∧
    (∀ (op op' : ReviewOp) (db : Store) (u u' : User) (rid : Nat)
        (hash hash' : String → String) (nuid nuid' : Nat) (db' : Store),
      legalDecision op →
      u'.role = "admin" →
      runReview op db u rid hash nuid = .ok db' →
      runReview op' db' u' rid hash' nuid' =
        .error ⟨400, "Request has already been processed"⟩) := by
  have hterm_stuck : ∀ (op : ReviewOp) (db : Store) (u : User) (rid : Nat)
      (req : RegistrationRequest) (hash : String → String) (nuid : Nat)
      (db' : Store),
      db.requests.find? (fun r => r.id == rid) = some req →
      req.status ≠ "pending" →
      runReview op db u rid hash nuid ≠ .ok db' := by
    intro op db u rid req hash nuid db' hfind hterm hc
    cases op with
    | process d =>
      simp only [runReview] at hc
      by_cases hadm : u.role = "admin"
      · rw [process_terminal_conflict d hash nuid hadm hfind hterm] at hc
        cases hc
      · rw [show process_registration_request db u rid d hash nuid =
            .error ⟨403, "Only admins can process registration requests"⟩ from by
          unfold process_registration_request
          simp [hadm]] at hc
        cases hc
    | approve =>
      simp only [runReview] at hc
      by_cases hadm : u.role = "admin"
      · rw [approve_terminal_conflict hash nuid hadm hfind hterm] at hc
        cases hc
      · rw [show approve_registration_request db u rid hash nuid =
            .error ⟨403, "Only admins can approve registration requests"⟩ from by
          unfold approve_registration_request
          simp [hadm]] at hc
        cases hc
    | reject =>
      simp only [runReview] at hc
      by_cases hadm : u.role = "admin"
      · rw [reject_terminal_conflict hadm hfind hterm] at hc
        cases hc
      · rw [show reject_registration_request db u rid =
            .error ⟨403, "Only admins can reject registration requests"⟩ from by
          unfold reject_registration_request
          simp [hadm]] at hc
        cases hc
  refine ⟨?_, ?_, ?_, ?_, ?_, hterm_stuck, ?_⟩
  · intro db u rid req hash nuid hadm hfind hpend
    refine ⟨{ db with
        requests := db.requests.map fun r =>
          if r.id == rid then { r with status := "rejected" } else r },
      { req with status := "rejected" }, ?_, ?_, rfl⟩
    · simp only [runReview, reject_pending_ok hadm hfind hpend]
    · exact find?_map_of_pred_preserved (fun r => r.id == rid)
        (fun r => { r with status := "rejected" }) (fun _ => rfl) db.requests req hfind
  · intro db u rid req hash nuid hadm hfind hpend
    refine ⟨{ db with
        requests := db.requests.map fun r =>
          if r.id == rid then { r with status := "rejected" } else r },
      { req with status := "rejected" }, ?_, ?_, rfl⟩
    · simp only [runReview,
        process_pending_not_approved_ok "rejected" hash nuid hadm hfind hpend
          (by decide)]
    · exact find?_map_of_pred_preserved (fun r => r.id == rid)
        (fun r => { r with status := "rejected" }) (fun _ => rfl) db.requests req hfind
  · intro db u rid req hash nuid hadm hfind hpend hfree
    refine ⟨{ db with
        requests := db.requests.map fun r =>
          if r.id == rid then { r with status := "approved" } else r,
        users := db.users ++
          [⟨nuid, req.username, req.email, hash (req.username ++ "123"),
            req.name, req.role⟩] },
      { req with status := "approved" }, ?_, ?_, rfl⟩
    · simp only [runReview, process_pending_approved_ok hash nuid hadm hfind hpend hfree]
    · exact find?_map_of_pred_preserved (fun r => r.id == rid)
        (fun r => { r with status := "approved" }) (fun _ => rfl) db.requests req hfind
  · intro db u rid req hash nuid hadm hfind hpend
    simp only [runReview, approve_pending_500 hash nuid hadm hfind hpend]
  · intro db u rid req hash nuid hadm hfind hpend hcoll
    simp only [runReview, process_pending_approved_500 hash nuid hadm hfind hpend hcoll]
  · intro op op' db u u' rid hash hash' nuid nuid' db' hleg hadm' hok
    rcases runReview_ok_inv hok hleg with ⟨req', hfind', hterm⟩
    have hne : req'.status ≠ "pending" := by
      rcases hterm with h | h <;> rw [h] <;> decide
    cases op' with
    | process d =>
      simp only [runReview, process_terminal_conflict d hash' nuid' hadm' hfind' hne]
    | approve =>
      simp only [runReview, approve_terminal_conflict hash' nuid' hadm' hfind' hne]
    | reject =>
      exact reject_terminal_conflict hadm' hfind' hne

/-- Admin fixture. -/
def adminFix : User := ⟨1, "admin", "admin@school.com", "ha", "Administrator", "admin"⟩

/-- A pending registration request fixture. -/
def reqPendFix : RegistrationRequest := ⟨1, "john", "john@x.com", "John", "student", "pending"⟩

/-- Store holding only the pending request fixture. -/
def dbPendFix : Store := ⟨[], [], [], [], [reqPendFix]⟩

/-- A concrete stand-in for the opaque password-hash collaborator. -/
def hashFix : String → String := fun s => s

/-- The store after the generic route reviews `reqPendFix` with decision
"rejected" on `dbPendFix`. -/
def dbRejectedFix : Store :=
  ⟨[], [], [], [], [⟨1, "john", "john@x.com", "John", "student", "rejected"⟩]⟩

/-- C3 counterexample: the first review of a stored pending request does
NOT succeed on the approve route — it answers 500 (the handler crashes
reading `request.first_name` before any write), so "the first review()
on a pending request succeeds" fails on that route. -/
theorem C3_counterexample :
    runReview ReviewOp.approve dbPendFix adminFix 1 hashFix 9 =
      .error ⟨500, "Internal Server Error"⟩ ∧
    dbPendFix.requests.find? (fun r => r.id == 1) = some reqPendFix ∧
    reqPendFix.status = "pending" := by
  exact ⟨rfl, rfl, rfl⟩

/-- C3 witness: the theorem's second-review clause applied to a concrete
review-then-review run — the generic route rejects the pending request,
then the reject route answers the 400 Conflict. -/
theorem C3_witness :
    runReview ReviewOp.reject dbRejectedFix adminFix 1 hashFix 10 =
      .error ⟨400, "Request has already been processed"⟩ :=
  C3_review_terminal.2.2.2.2.2.2 (ReviewOp.process "rejected") ReviewOp.reject
    dbPendFix adminFix adminFix 1 hashFix hashFix 9 10 dbRejectedFix
    (Or.inr rfl) rfl rfl

/-! ### C2: what each successful operation does to the submissions table -/

/-- Sending a message leaves the submissions table unchanged. -/
lemma send_message_submissions {db : Store} {u : User} {rid : Nat}
    {s c : String} {nid : Nat} {m : Message} {db' : Store}
    (h : send_message db u rid s c nid = .ok (m, db')) :
    db'.submissions = db.submissions := by
  simp [send_message] at h

/-- Sending to a teacher leaves the submissions table unchanged. -/
lemma send_message_to_teacher_submissions {db : Store} {u : User}
    {tid : Option Nat} {s c : String} {nid : Nat} {m : Message} {db' : Store}
    (h : send_message_to_teacher db u tid s c nid = .ok (m, db')) :
    db'.submissions = db.submissions := by
  simp only [send_message_to_teacher] at h
  split at h <;> simp at h

/-- Marking a message read leaves the submissions table unchanged. -/
lemma mark_message_as_read_submissions {db : Store} {mid : Nat} {u : User}
    {db' : Store} (h : mark_message_as_read db mid u = .ok db') :
    db'.submissions = db.submissions := by
  simp only [mark_message_as_read] at h
  split at h <;> simp at h

/-- Creating an assignment leaves the submissions table unchanged. -/
lemma create_assignment_submissions {db : Store} {u : User} {t : String}
    {d : Option String} {s cn : String} {nid : Nat} {a : Assignment} {db' : Store}
    (h : create_assignment db u t d s cn nid = .ok (a, db')) :
    db'.submissions = db.submissions := by
  simp only [create_assignment] at h
  repeat' split at h
  all_goals first
    | (simp only [Except.ok.injEq, Prod.mk.injEq] at h
       obtain ⟨-, h2⟩ := h
       subst h2
       rfl)
    | simp at h

/-- Updating an assignment leaves the submissions table unchanged. -/
lemma update_assignment_submissions {db : Store} {u : User} {aid : Nat}
    {t : String} {d : Option String} {s cn : String} {a : Assignment} {db' : Store}
    (h : update_assignment db u aid t d s cn = .ok (a, db')) :
    db'.submissions = db.submissions := by
  simp only [update_assignment] at h
  repeat' split at h
  all_goals first
    | (simp only [Except.ok.injEq, Prod.mk.injEq] at h
       obtain ⟨-, h2⟩ := h
       subst h2
       rfl)
    | simp at h

/-- Deleting an assignment leaves the submissions table unchanged. -/
lemma delete_assignment_submissions {db : Store} {u : User} {aid : Nat}
    {db' : Store} (h : delete_assignment db u aid = .ok db') :
    db'.submissions = db.submissions := by
  simp only [delete_assignment] at h
  repeat' split at h
  all_goals first
    | (simp only [Except.ok.injEq] at h
       subst h
       rfl)
    | simp at h

/-- Intake on the `/auth` router leaves the submissions table unchanged. -/
lemma auth_create_registration_request_submissions {db : Store}
    {un em nm rl : String} {nid : Nat} {rq : RegistrationRequest} {db' : Store}
    (h : auth_create_registration_request db un em nm rl nid = .ok (rq, db')) :
    db'.submissions = db.submissions := by
  simp only [auth_create_registration_request] at h
  repeat' split at h
  all_goals first
    | (simp only [Except.ok.injEq, Prod.mk.injEq] at h
       obtain ⟨-, h2⟩ := h
       subst h2
       rfl)
    | simp at h

/-- Intake on the `/registration-requests` router leaves the submissions
table unchanged. -/
lemma rr_create_registration_request_submissions {db : Store}
    {un em nm rl : String} {nid : Nat} {rq : RegistrationRequest} {db' : Store}
    (h : rr_create_registration_request db un em nm rl nid = .ok (rq, db')) :
    db'.submissions = db.submissions := by
  simp only [rr_create_registration_request] at h
  repeat' split at h
  all_goals first
    | (simp only [Except.ok.injEq, Prod.mk.injEq] at h
       obtain ⟨-, h2⟩ := h
       subst h2
       rfl)
    | simp at h

/-- Processing a registration request leaves the submissions table
unchanged. -/
lemma process_registration_request_submissions {db : Store} {u : User}
    {rid : Nat} {st : String} {hash : String → String} {nuid : Nat}
    {rq : RegistrationRequest} {db' : Store}
    (h : process_registration_request db u rid st hash nuid = .ok (rq, db')) :
    db'.submissions = db.submissions := by
  simp only [process_registration_request] at h
  repeat' split at h
  all_goals first
    | (simp only [Except.ok.injEq, Prod.mk.injEq] at h
       obtain ⟨-, h2⟩ := h
       subst h2
       rfl)
    | simp at h

/-- Approving a registration request leaves the submissions table
unchanged. -/
lemma approve_registration_request_submissions {db : Store} {u : User}
    {rid : Nat} {hash : String → String} {nuid : Nat} {un : String} {db' : Store}
    (h : approve_registration_request db u rid hash nuid = .ok (un, db')) :
    db'.submissions = db.submissions := by
  simp only [approve_registration_request] at h
  repeat' split at h
  all_goals simp at h

/-- Rejecting a registration request leaves the submissions table
unchanged. -/
lemma reject_registration_request_submissions {db : Store} {u : User}
    {rid : Nat} {db' : Store}
    (h : reject_registration_request db u rid = .ok db') :
    db'.submissions = db.submissions := by
  simp only [reject_registration_request] at h
  repeat' split at h
  all_goals first
    | (simp only [Except.ok.injEq] at h
       subst h
       rfl)
    | simp at h

/-- Deleting a registration request leaves the submissions table
unchanged. -/
lemma delete_registration_request_submissions {db : Store} {u : User}
    {rid : Nat} {db' : Store}
    (h : delete_registration_request db u rid = .ok db') :
    db'.submissions = db.submissions := by
  simp only [delete_registration_request] at h
  repeat' split at h
  all_goals first
    | (simp only [Except.ok.injEq] at h
       subst h
       rfl)
    | simp at h

/-- The startup seed leaves the submissions table unchanged. -/
lemma ensure_user_submissions (db : Store) (un em pw nm rl : String)
    (hash : String → String) (nid : Nat) :
    (ensure_user db un em pw nm rl hash nid).submissions = db.submissions := by
  unfold ensure_user
  repeat' split
  all_goals rfl

/-- Grading rewrites the graded row in place: the submissions table
becomes a per-row update that keeps every id, assignment and student. -/
lemma grade_submission_submissions {db : Store} {u : User} {sid : Nat}
    {g : String} {fb : Option String} {s : AssignmentSubmission} {db' : Store}
    (h : grade_submission db u sid g fb = .ok (s, db')) :
    db'.submissions = db.submissions.map fun x =>
      if x.id == sid then { x with grade := some g, feedback := fb } else x := by
  simp only [grade_submission] at h
  repeat' split at h
  all_goals first
    | (simp only [Except.ok.injEq, Prod.mk.injEq] at h
       obtain ⟨-, h2⟩ := h
       subst h2
       rfl)
    | simp at h

/-- Full inversion of a successful student-router submission. -/
lemma students_submit_ok_inv {db : Store} {u : User} {aid : Nat} {c : String}
    {nid : Nat} {s : AssignmentSubmission} {db' : Store}
    (h : students_submit_assignment db u aid c nid = .ok (s, db')) :
    u.role = "student" ∧
    (∃ a, db.assignments.find? (fun x => x.id == aid) = some a) ∧
    db.submissions.find?
      (fun x => x.assignment_id == aid && x.student_id == u.id) = none ∧
    s = ⟨nid, aid, u.id, c, none, none⟩ ∧
    db'.submissions = db.submissions ++ [s] ∧
    db'.assignments = db.assignments := by
  unfold students_submit_assignment at h
  by_cases hrole : (u.role != "student") = true
  · rw [if_pos hrole] at h
    simp at h
  · rw [if_neg hrole] at h
    cases hasg : db.assignments.find? (fun x => x.id == aid) with
    | none => rw [hasg] at h; simp at h
    | some a =>
      rw [hasg] at h
      cases hdup : db.submissions.find?
          (fun x => x.assignment_id == aid && x.student_id == u.id) with
      | some x => rw [hdup] at h; simp at h
      | none =>
        rw [hdup] at h
        simp only [Except.ok.injEq, Prod.mk.injEq] at h
        obtain ⟨h1, h2⟩ := h
        refine ⟨by simpa using hrole, ⟨a, rfl⟩, rfl, h1.symm, ?_, ?_⟩
        · rw [← h2, ← h1]
        · rw [← h2]

/-- The assignments-router submit never succeeds: every path ends in
403, 404, the duplicate 400, or the 500 insert crash. -/
lemma assignments_submit_never_ok {db : Store} {u : User} {aid : Nat} {c : String}
    {nid : Nat} {s : AssignmentSubmission} {db' : Store} :
    assignments_submit_assignment db u aid c nid ≠ .ok (s, db') := by
  intro h
  simp only [assignments_submit_assignment] at h
  repeat' split at h
  all_goals simp at h

/-- A submission attempt for a pair that is already stored answers the
duplicate 400 on the student router. -/
lemma students_submit_conflict {db : Store} {u : User} {aid : Nat}
    {s0 : AssignmentSubmission} {a : Assignment} (c : String) (nid : Nat)
    (hrole : u.role = "student")
    (hasg : db.assignments.find? (fun x => x.id == aid) = some a)
    (hdup : db.submissions.find?
      (fun x => x.assignment_id == aid && x.student_id == u.id) = some s0) :
    students_submit_assignment db u aid c nid =
      .error ⟨400, "Assignment already submitted"⟩ := by
  unfold students_submit_assignment
  simp only [hrole, hasg, hdup]
  simp

/-- A submission attempt for a pair that is already stored answers the
duplicate 400 on the assignments router. -/
lemma assignments_submit_conflict {db : Store} {u : User} {aid : Nat}
    {s0 : AssignmentSubmission} {a : Assignment} (c : String) (nid : Nat)
    (hrole : u.role = "student")
    (hasg : db.assignments.find? (fun x => x.id == aid) = some a)
    (hdup : db.submissions.find?
      (fun x => x.assignment_id == aid && x.student_id == u.id) = some s0) :
    assignments_submit_assignment db u aid c nid =
      .error ⟨400, "Assignment already submitted"⟩ := by
  unfold assignments_submit_assignment
  simp only [hrole, hasg, hdup]
  simp

/-- C2 amended: in every reachable store at most one submission row
exists per (assignment, student) pair.  On the students-router route a
submission by a student to an existing assignment with no prior row
succeeds and appends exactly one row, and afterwards a second attempt by
the same student for the same assignment answers the duplicate 400 on
BOTH submit routes, inserting nothing.  The assignments-router route
never inserts: past its duplicate check it answers 500 (the insert
crashes), so a first submit succeeds only on the students route. -/
theorem C2_submission_unique :
    (∀ db, Reachable db → subPairUnique db.submissions) ∧
    (∀ (db : Store) (u : User) (aid : Nat) (c : String) (nid : Nat)
        (a : Assignment),
      u.role = "student" →
      db.assignments.find? (fun x => x.id == aid) = some a →
      db.submissions.find?
        (fun x => x.assignment_id == aid && x.student_id == u.id) = none →
      students_submit_assignment db u aid c nid =
        .ok (⟨nid, aid, u.id, c, none, none⟩,
          { db with submissions :=
            db.submissions ++ [⟨nid, aid, u.id, c, none, none⟩] })) ∧
    (∀ (db : Store) (u : User) (aid : Nat) (c : String) (nid : Nat)
        (s : AssignmentSubmission) (db' : Store) (c2 : String) (nid2 : Nat),
      students_submit_assignment db u aid c nid = .ok (s, db') →
      students_submit_assignment db' u aid c2 nid2 =
        .error ⟨400, "Assignment already submitted"⟩ ∧
      assignments_submit_assignment db' u aid c2 nid2 =
        .error ⟨400, "Assignment already submitted"⟩) ∧
    (∀ (db : Store) (u : User) (aid : Nat) (c : String) (nid : Nat)
        (a : Assignment),
      u.role = "student" →
      db.assignments.find? (fun x => x.id == aid) = some a →
      db.submissions.find?
        (fun x => x.assignment_id == aid && x.student_id == u.id) = none →
      assignments_submit_assignment db u aid c nid =
        .error ⟨500, "Internal Server Error"⟩) := by
  refine ⟨?_, ?_, ?_, ?_⟩
  · intro db hreach
    induction hreach with
    | init => exact List.Pairwise.nil
    | step db1 db2 hr hstep ih =>
      cases hstep with
      | send_message _ _ _ _ _ _ _ hok =>
        rw [subPairUnique, send_message_submissions hok]
        exact ih
      | send_message_to_teacher _ _ _ _ _ _ _ hok =>
        rw [subPairUnique, send_message_to_teacher_submissions hok]
        exact ih
      | mark_message_as_read _ _ _ hok =>
        rw [subPairUnique, mark_message_as_read_submissions hok]
        exact ih
      | create_assignment _ _ _ _ _ _ _ _ hok =>
        rw [subPairUnique, create_assignment_submissions hok]
        exact ih
      | update_assignment _ _ _ _ _ _ _ _ hok =>
        rw [subPairUnique, update_assignment_submissions hok]
        exact ih
      | delete_assignment _ _ _ hok =>
        rw [subPairUnique, delete_assignment_submissions hok]
        exact ih
      | students_submit_assignment u aid c nid s _ hok =>
        obtain ⟨hrole, ⟨a, hasg⟩, hdup, hs, hsubs, -⟩ := students_submit_ok_inv hok
        subst hs
        rw [subPairUnique, hsubs, List.pairwise_append]
        refine ⟨ih, List.pairwise_singleton _ _, ?_⟩
        intro x hx y hy
        rw [List.mem_singleton] at hy
        subst hy
        rw [List.find?_eq_none] at hdup
        intro hcon
        obtain ⟨he1, he2⟩ := hcon
        exact hdup x hx (by simp [he1, he2])
      | assignments_submit_assignment u aid c nid s _ hok =>
        exact absurd hok assignments_submit_never_ok
      | grade_submission _ sid g fb _ _ hok =>
        rw [subPairUnique, grade_submission_submissions hok]
        refine List.Pairwise.map _ ?_ ih
        intro a b hab hcon
        obtain ⟨he1, he2⟩ := hcon
        have hfa : ∀ x : AssignmentSubmission,
            ((if (x.id == sid) = true then
              { x with grade := some g, feedback := fb } else x) :
                AssignmentSubmission).assignment_id = x.assignment_id := by
          intro x; split <;> rfl
        have hfs : ∀ x : AssignmentSubmission,
            ((if (x.id == sid) = true then
              { x with grade := some g, feedback := fb } else x) :
                AssignmentSubmission).student_id = x.student_id := by
          intro x; split <;> rfl
        rw [hfa, hfa] at he1
        rw [hfs, hfs] at he2
        exact hab ⟨he1, he2⟩
      | auth_create_registration_request _ _ _ _ _ _ _ hok =>
        rw [subPairUnique, auth_create_registration_request_submissions hok]
        exact ih
      | rr_create_registration_request _ _ _ _ _ _ _ hok =>
        rw [subPairUnique, rr_create_registration_request_submissions hok]
        exact ih
      | process_registration_request _ _ _ _ _ _ _ hok =>
        rw [subPairUnique, process_registration_request_submissions hok]
        exact ih
      | approve_registration_request _ _ _ _ _ _ hok =>
        rw [subPairUnique, approve_registration_request_submissions hok]
        exact ih
      | reject_registration_request _ _ _ hok =>
        rw [subPairUnique, reject_registration_request_submissions hok]
        exact ih
      | delete_registration_request _ _ _ hok =>
        rw [subPairUnique, delete_registration_request_submissions hok]
        exact ih
      | ensure_user un em pw nm rl hash nid =>
        rw [subPairUnique, ensure_user_submissions]
        exact ih
  · intro db u aid c nid a hrole hasg hdup
    unfold students_submit_assignment
    simp only [hrole, hasg, hdup]
    simp
  · intro db u aid c nid s db' c2 nid2 hfirst
    obtain ⟨hrole, ⟨a, hasg⟩, hdup, hs, hsubs, hasgs⟩ := students_submit_ok_inv hfirst
    subst hs
    have hasg' : db'.assignments.find? (fun x => x.id == aid) = some a := by
      rw [hasgs]; exact hasg
    have hdup' : db'.submissions.find?
        (fun x => x.assignment_id == aid && x.student_id == u.id) =
          some ⟨nid, aid, u.id, c, none, none⟩ := by
      rw [hsubs, List.find?_append, hdup]
      simp
    exact ⟨students_submit_conflict c2 nid2 hrole hasg' hdup',
      assignments_submit_conflict c2 nid2 hrole hasg' hdup'⟩
  · intro db u aid c nid a hrole hasg hdup
    unfold assignments_submit_assignment
    simp only [hrole, hasg, hdup]
    simp

/-- C2 counterexample: a first submission on the assignments router —
student actor, existing assignment, empty submissions table — answers
500 (the insert reads `submission.submission_text`, which does not
exist) instead of succeeding, so the claimed "first submit succeeds"
fails on that cited route. -/
theorem C2_counterexample :
    assignments_submit_assignment dbAsgFix stuFix 1 "essay" 1 =
      .error ⟨500, "Internal Server Error"⟩ ∧
    dbAsgFix.submissions = [] := by
  exact ⟨rfl, rfl⟩

/-- The submission row stored by the C2 witness's first submit. -/
def subW : AssignmentSubmission := ⟨1, 1, 2, "essay", none, none⟩

/-- The store after the C2 witness's first submit. -/
def dbSubW : Store := ⟨[], [asgFix], [subW], [], []⟩

/-- C2 witness: applying the theorem's success-then-conflict clause to a
concrete first submission on the students route — the second attempt
gets the duplicate 400 on both routes. -/
theorem C2_witness :
    students_submit_assignment dbSubW stuFix 1 "again" 2 =
      .error ⟨400, "Assignment already submitted"⟩ ∧
    assignments_submit_assignment dbSubW stuFix 1 "again" 2 =
      .error ⟨400, "Assignment already submitted"⟩ :=
  C2_submission_unique.2.2.1 dbAsgFix stuFix 1 "essay" 1 subW dbSubW "again" 2 rfl

/-! ### C4 -/

/-- A pending request whose stored username collides with an existing
user's username (reachable: the user was created after intake). -/
def reqDupFix : RegistrationRequest := ⟨2, "john", "j2@x.com", "John Two", "student", "pending"⟩

/-- Store with an existing user "john" and the colliding pending request. -/
def dbDupFix : Store :=
  ⟨[⟨9, "john", "john@x.com", "student123", "John", "student"⟩], [], [], [],
    [reqDupFix]⟩

/-- C4 counterexample: neither approval path behaves as claimed.  The
`/auth` path copies the request's stored username verbatim — no
email-derived base, no suffix loop — and a colliding approval hits the
UNIQUE constraint: 500 and nothing stored, rather than a suffixed unique
username.  The `/registration-requests` approve path (the one holding
the derivation code) answers 500 on every pending request and never
creates a user at all. -/
theorem C4_counterexample :
    process_registration_request dbDupFix adminFix 2 "approved" hashFix 10 =
      .error ⟨500, "Internal Server Error"⟩ ∧
    usernameTaken dbDupFix.users "john" = true ∧
    approve_registration_request dbPendFix adminFix 1 hashFix 9 =
      .error ⟨500, "Internal Server Error"⟩ := by
  exact ⟨rfl, rfl, rfl⟩

/-- C4 amended: only the `/auth` process path ever creates a user, and
it copies the request's stored username.  Whenever it succeeds, that
username (and email) was free among all existing users at the moment of
approval — uniqueness enforced by the UNIQUE constraint, which makes a
colliding approval fail with 500 and store nothing instead of appending
a numeric suffix; a collision-free approval succeeds and appends the
row.  The `/registration-requests` approve path never creates a user:
on a pending request it 500s before any write (its email-derived
suffix loop is dead code). -/
theorem C4_amended (db : Store) (u : User) (rid : Nat) (req : RegistrationRequest)
    (hash : String → String) (nuid : Nat)
    (hadm : u.role = "admin")
    (hfind : db.requests.find? (fun r => r.id == rid) = some req)
    (hpend : req.status = "pending") :
    (∀ rq db', process_registration_request db u rid "approved" hash nuid =
        .ok (rq, db') →
      usernameTaken db.users req.username = false ∧
      db'.users = db.users ++
        [⟨nuid, req.username, req.email, hash (req.username ++ "123"),
          req.name, req.role⟩]) ∧
    ((db.users.find? fun x =>
        x.username == req.username || x.email == req.email).isSome = true →
      process_registration_request db u rid "approved" hash nuid =
        .error ⟨500, "Internal Server Error"⟩) ∧
    ((db.users.find? fun x =>
        x.username == req.username || x.email == req.email) = none →
      process_registration_request db u rid "approved" hash nuid =
        .ok ({ req with status := "approved" },
          { db with
            requests := db.requests.map fun r =>
              if r.id == rid then { r with status := "approved" } else r,
            users := db.users ++
              [⟨nuid, req.username, req.email, hash (req.username ++ "123"),
                req.name, req.role⟩] })) ∧
    approve_registration_request db u rid hash nuid =
      .error ⟨500, "Internal Server Error"⟩ := by
  refine ⟨?_, ?_, ?_, approve_pending_500 hash nuid hadm hfind hpend⟩
  · intro rq db' hok
    cases hcoll : db.users.find? (fun x =>
        x.username == req.username || x.email == req.email) with
    | some x =>
      rw [process_pending_approved_500 hash nuid hadm hfind hpend
        (by rw [hcoll]; rfl)] at hok
      cases hok
    | none =>
      rw [process_pending_approved_ok hash nuid hadm hfind hpend hcoll] at hok
      simp only [Except.ok.injEq, Prod.mk.injEq] at hok
      obtain ⟨-, h2⟩ := hok
      rw [List.find?_eq_none] at hcoll
      refine ⟨?_, by rw [← h2]⟩
      by_cases hbt : usernameTaken db.users req.username = true
      · exfalso
        unfold usernameTaken at hbt
        rcases List.any_eq_true.mp hbt with ⟨x, hx, hb⟩
        exact hcoll x hx (by simp [eq_of_beq hb])
      · exact Bool.eq_false_iff.mpr hbt
  · intro hcoll
    exact process_pending_approved_500 hash nuid hadm hfind hpend hcoll
  · intro hfree
    exact process_pending_approved_ok hash nuid hadm hfind hpend hfree

/-- The store after the generic route approves `reqPendFix` on
`dbPendFix` (no collision: the users table is empty). -/
def dbProcessedFix : Store :=
  ⟨[⟨9, "john", "john@x.com", hashFix ("john" ++ "123"), "John", "student"⟩],
    [], [], [],
    [⟨1, "john", "john@x.com", "John", "student", "approved"⟩]⟩

/-- C4 witness: the amended theorem applied to the concrete pending
request — the collision-free approval succeeds and the created username
"john" was free among all stored users. -/
theorem C4_witness :
    process_registration_request dbPendFix adminFix 1 "approved" hashFix 9 =
      .ok (⟨1, "john", "john@x.com", "John", "student", "approved"⟩,
        dbProcessedFix) ∧
    usernameTaken dbPendFix.users "john" = false := by
  have h := (C4_amended dbPendFix adminFix 1 reqPendFix hashFix 9 rfl rfl rfl).2.2.1 rfl
  refine ⟨h, ?_⟩
  exact ((C4_amended dbPendFix adminFix 1 reqPendFix hashFix 9 rfl rfl rfl).1 _ _ h).1

/-- Teacher fixture: the creator of `asgFix`. -/
def teachFix : User := ⟨7, "teacher1", "teacher1@school.com", "h7", "Teacher One", "teacher"⟩

/-- An ungraded submission to `asgFix` by `stuFix`. -/
def subGradeFix : AssignmentSubmission := ⟨1, 1, 2, "work", none, none⟩

/-- Store holding `asgFix` and the ungraded submission. -/
def dbGradeFix : Store := ⟨[], [asgFix], [subGradeFix], [], []⟩

/-- C8 witness: the theorem applied to the owning teacher grading the
concrete stored submission. -/
theorem C8_witness :
    grade_submission dbGradeFix teachFix 1 "A" (some "good") =
      .ok ({ subGradeFix with grade := some "A", feedback := some "good" },
        { dbGradeFix with submissions := dbGradeFix.submissions.map fun x =>
            if x.id == 1 then { x with grade := some "A", feedback := some "good" }
            else x }) :=
  (C8_grade_overwrite_idempotent dbGradeFix teachFix 1 "A" (some "good") subGradeFix
    rfl (Or.inr ⟨rfl, asgFix, rfl, rfl⟩)).1
